import Mathlib

/-!
Verification development for the CarteraSanBenitoFormat main process
(`src/main/main.js`): backend resolution, job supervision, event
propagation and the consent-gated auto-updater, shallowly embedded in
Lean 4.

Paths are modelled as `String`s with the semantics of Node's posix
`path` module (`extname`, `dirname`, `parse(..).name`, `basename`,
`join`), re-implemented below following Node's algorithms.
-/

namespace CSB

namespace NodePath

/-- Drop every trailing `'/'` of a character list. -/
def dropTrailingSeps (l : List Char) : List Char :=
  (l.reverse.dropWhile (fun c => c == '/')).reverse

/-- The part of `l` after its last `'/'` (all of `l` when it has none). -/
def lastComponent (l : List Char) : List Char :=
  (l.reverse.takeWhile (fun c => c != '/')).reverse

/-- Index of the last occurrence of `c` in `l`, if any. -/
def lastIdxOf (c : Char) (l : List Char) : Option Nat :=
  let after := l.reverse.takeWhile (fun x => x != c)
  if after.length == l.length then none
  else some (l.length - after.length - 1)

/-- Extension of a basename `b` (no separators inside), following Node's
dot rules: empty when `b` has no dot, when the last dot is `b`'s first
character, or when `b` is exactly `".."`; otherwise the suffix of `b`
from its last dot. -/
def extAt (b : List Char) : List Char :=
  match lastIdxOf '.' b with
  | none => []
  | some i =>
    if i == 0 then []
    else if b == ['.', '.'] then []
    else b.drop i

/-- Node `path.posix.extname`. -/
def extname (s : String) : String :=
  String.mk (extAt (lastComponent (dropTrailingSeps s.toList)))

/-- Node `path.posix.basename` (no extension argument). -/
def basename (s : String) : String :=
  String.mk (lastComponent (dropTrailingSeps s.toList))

/-- Node `path.posix.parse(s).name`: the basename with its extension
removed. -/
def parseName (s : String) : String :=
  let b := lastComponent (dropTrailingSeps s.toList)
  String.mk (b.take (b.length - (extAt b).length))

/-- Node `path.posix.dirname`. -/
def dirname (s : String) : String :=
  let l := s.toList
  if l.isEmpty then "."
  else
    let hasRoot := l.head? == some '/'
    let stripped := dropTrailingSeps l
    match lastIdxOf '/' stripped with
    | none => if hasRoot then "/" else "."
    | some j =>
      if j == 0 then (if hasRoot then "/" else ".")
      else if hasRoot && j == 1 then "//"
      else String.mk (stripped.take j)

/-- Split a character list on `'/'` into components (separators not
kept; `n` separators yield `n+1` components). -/
def splitSep : List Char → List (List Char)
  | [] => [[]]
  | c :: rest =>
    match splitSep rest, c == '/' with
    | r, true => [] :: r
    | [], false => [[c]]
    | h :: t, false => (c :: h) :: t

/-- One step of Node's `normalizeString`: fold a path component onto the
stack of kept components (stack in reverse order). `".."` pops a normal
component, stacks on another `".."`, and above the root is kept only
when `allowAboveRoot` (i.e. for relative paths). -/
def normStep (allowAboveRoot : Bool) (stack : List (List Char)) (comp : List Char) :
    List (List Char) :=
  if comp == [] || comp == ['.'] then stack
  else if comp == ['.', '.'] then
    match stack with
    | top :: rest => if top == ['.', '.'] then comp :: (top :: rest) else rest
    | [] => if allowAboveRoot then [comp] else []
  else comp :: stack

/-- Node `path.posix.normalize`. -/
def normalize (s : String) : String :=
  let l := s.toList
  if l.isEmpty then "."
  else
    let isAbs := l.head? == some '/'
    let trailingSep := l.getLast? == some '/'
    let core := List.intercalate ['/'] (((splitSep l).foldl (normStep !isAbs) []).reverse)
    if core.isEmpty then
      if isAbs then "/" else if trailingSep then "./" else "."
    else
      let withTrail := if trailingSep then core ++ ['/'] else core
      if isAbs then String.mk ('/' :: withTrail) else String.mk withTrail

/-- Node `path.posix.join`: empty segments are skipped, the rest are
concatenated with `'/'` and normalized; with nothing left the result is
`"."`. -/
def join (parts : List String) : String :=
  let nonEmpty := parts.filter (fun p => p != "")
  if nonEmpty.isEmpty then "."
  else normalize (String.intercalate "/" nonEmpty)

end NodePath

/-- `sub` is an initial segment of `s` (character lists). -/
def startsWithChars : List Char → List Char → Bool
  | _, [] => true
  | [], _ :: _ => false
  | a :: as, b :: bs => a == b && startsWithChars as bs

/-- `sub` occurs contiguously somewhere in `s` (character lists). -/
def containsChars (s sub : List Char) : Bool :=
  match s with
  | [] => startsWithChars [] sub
  | _ :: rest => startsWithChars s sub || containsChars rest sub

/-- JavaScript `String.prototype.includes` (substring containment). -/
def jsIncludes (s sub : String) : Bool :=
  containsChars s.toList sub.toList

/-- ASCII lower-casing of one character, as
`String.prototype.toLowerCase` acts on the characters appearing here. -/
def jsToLowerChar (c : Char) : Char :=
  if 65 ≤ c.toNat && c.toNat ≤ 90 then Char.ofNat (c.toNat + 32) else c

/-- JavaScript `String.prototype.toLowerCase`. -/
def jsToLower (s : String) : String :=
  String.mk (s.toList.map jsToLowerChar)

/-- The whitespace class `String.prototype.trim` strips (the common
members: space, tab, line feed, carriage return, vertical tab, form
feed, no-break space, byte-order mark). -/
def jsIsWhitespace (c : Char) : Bool :=
  c == ' ' || c == '\t' || c == '\n' || c == '\r' ||
  c == Char.ofNat 11 || c == Char.ofNat 12 ||
  c == Char.ofNat 0xa0 || c == Char.ofNat 0xfeff

/-- JavaScript `String.prototype.trim`: strip leading and trailing
whitespace. -/
def jsTrim (s : String) : String :=
  String.mk (((s.toList.dropWhile jsIsWhitespace).reverse.dropWhile
    jsIsWhitespace).reverse)

/-- Decidable equality for `Except`, used to evaluate the model on
concrete inputs. -/
instance {ε α : Type} [DecidableEq ε] [DecidableEq α] :
    DecidableEq (Except ε α) := fun a b =>
  match a, b with
  | .ok x, .ok y =>
    if h : x = y then isTrue (by rw [h]) else isFalse (by simp [h])
  | .error x, .error y =>
    if h : x = y then isTrue (by rw [h]) else isFalse (by simp [h])
  | .ok _, .error _ => isFalse (by simp)
  | .error _, .ok _ => isFalse (by simp)

/-- A resolved backend command with its leading arguments
(`{ command, args }` in `getPythonInvocation`). -/
structure Invocation where
  command : String
  args : List String
deriving DecidableEq

/-- The environment `main.js` consults during resolution: deployment
mode (`app.isPackaged`), `process.platform`, the project root
(`path.join(__dirname, '..', '..')`), `process.resourcesPath`, and the
injected existence probe `fs.existsSync`. -/
structure ResolveEnv where
  isPackaged : Bool
  platform : String
  projectRoot : String
  resourcesPath : String
  existsSync : String → Bool

/-- `resolveDevPython` (main.js:19-36): probe the local virtual
environment for an interpreter, platform-dependent candidate order,
first existing candidate wins. -/
def resolveDevPython (env : ResolveEnv) : Option String :=
  let venvDir := NodePath.join [env.projectRoot, ".venv"]
  let binariesDir := if env.platform == "win32"
    then NodePath.join [venvDir, "Scripts"]
    else NodePath.join [venvDir, "bin"]
  let candidates := if env.platform == "win32"
    then [NodePath.join [binariesDir, "python.exe"],
          NodePath.join [binariesDir, "python"]]
    else [NodePath.join [binariesDir, "python3"],
          NodePath.join [binariesDir, "python"]]
  candidates.find? env.existsSync

/-- The conversion script path used in development mode
(`path.join(projectRoot, 'python', 'processor.py')`, main.js:44). -/
def scriptPath (env : ResolveEnv) : String :=
  NodePath.join [env.projectRoot, "python", "processor.py"]

/-- The packaged resources directory holding the backend
(`path.join(process.resourcesPath, 'python')`, main.js:62). -/
def packagedDir (env : ResolveEnv) : String :=
  NodePath.join [env.resourcesPath, "python"]

/-- The platform-dependent packaged executable name (main.js:63). -/
def executableName (env : ResolveEnv) : String :=
  if env.platform == "win32" then "processor.exe" else "processor"

/-- The ordered packaged executable candidate list (main.js:68-74). -/
def executableCandidates (env : ResolveEnv) : List String :=
  [NodePath.join [packagedDir env, executableName env],
   NodePath.join [packagedDir env, "bin", executableName env],
   NodePath.join [packagedDir env, "dist", executableName env],
   NodePath.join [packagedDir env, "dist", "processor", executableName env],
   NodePath.join [packagedDir env, "processor", executableName env]]

/-- The packaged fallback script path (main.js:85). -/
def packagedScript (env : ResolveEnv) : String :=
  NodePath.join [packagedDir env, "processor.py"]

/-- The platform's conventional interpreter name
(`platform === 'win32' ? 'python' : 'python3'`, main.js:55 and 90). -/
def systemPythonCmd (env : ResolveEnv) : String :=
  if env.platform == "win32" then "python" else "python3"

/-- `getPythonInvocation` (main.js:43-96). Development mode: the local
virtual-environment interpreter with the script as argument, else the
system interpreter name with the script. Packaged mode: the first
existing executable candidate with no arguments, else the packaged
script through the system interpreter name, else a thrown error
(modelled as `Except.error` carrying the thrown message). -/
def getPythonInvocation (env : ResolveEnv) : Except String Invocation :=
  if !env.isPackaged then
    match resolveDevPython env with
    | some localPython => .ok ⟨localPython, [scriptPath env]⟩
    | none => .ok ⟨systemPythonCmd env, [scriptPath env]⟩
  else
    match (executableCandidates env).find? env.existsSync with
    | some candidate => .ok ⟨candidate, []⟩
    | none =>
      if env.existsSync (packagedScript env) then
        .ok ⟨systemPythonCmd env, [packagedScript env]⟩
      else
        .error ("No se pudo encontrar un procesador Python empaquetado en "
          ++ packagedDir env)

/-- An event pushed to the renderer through `sendToRenderer`: either a
`processing-state` payload `{status, input?, output?, error?}` or a
`log-message` payload `{level, message}`. -/
inductive ProcEvent where
  | procState (status : String) (input output error : Option String)
  | logMsg (level message : String)
deriving DecidableEq

/-- What the spawned child process does, as observed by the supervisor's
callbacks: either the `'error'` event fires (with the error's `code`
and `message`), or the streams deliver `chunks` (flag `true` =
standard error) and `'close'` fires with an exit code. -/
inductive SpawnOutcome where
  | spawnErr (code message : String)
  | exited (chunks : List (Bool × String)) (code : Int)

/-- The `stdout.on('data')` handler (main.js:161-167): trim the chunk;
a non-empty remainder becomes one info-level `log-message`, an empty
one produces nothing. -/
def stdoutDataEvents (data : String) : List ProcEvent :=
  let message := jsTrim data
  if message != "" then [ProcEvent.logMsg "info" message] else []

/-- The `stderr.on('data')` handler (main.js:169-175): same as standard
output but at error level. -/
def stderrDataEvents (data : String) : List ProcEvent :=
  let message := jsTrim data
  if message != "" then [ProcEvent.logMsg "error" message] else []

/-- Dispatch one observed chunk to the matching stream handler. -/
def chunkEvents (c : Bool × String) : List ProcEvent :=
  if c.1 then stderrDataEvents c.2 else stdoutDataEvents c.2

/-- The `'error'` handler's message classification (main.js:177-189).
The source compares `error.code` with `'ENOENT'` and with the number
`9009`; error codes are modelled as strings, so the latter comparison
is against `"9009"`. -/
def spawnErrorMessage (command errCode errMessage : String) : String :=
  if errCode == "ENOENT" then
    "No se pudo encontrar el ejecutable: " ++ command
      ++ ". Verifica que Python esté instalado correctamente."
  else if errCode == "9009" then
    "Error 9009: No se pudo ejecutar el comando Python. Verifica que Python esté en el PATH del sistema."
  else errMessage

/-- The `'close'` handler's message for a nonzero exit code
(main.js:196-202): a dedicated message for 9009 and for 1, otherwise
the generic message carrying the raw code. -/
def closeMessage (code : Int) : String :=
  if code == 9009 then
    "Error 9009: No se pudo encontrar o ejecutar Python. Verifica la instalación."
  else if code == 1 then
    "Error en el procesamiento Python. Revisa el archivo de entrada."
  else "Python finalizó con código " ++ toString code

/-- `runPythonProcessor` (main.js:139-215) as a function from the
resolution environment and the child's observed behaviour to the list
of renderer events it emits and its promise outcome. A resolution
throw is caught by the surrounding `try` and rejects with no events;
then the start log is emitted; then the pre-spawn command check
(`!fs.existsSync(command) && !command.includes('python')`) may reject;
otherwise the child's chunks and its `'error'`/`'close'` callback
decide the outcome. -/
def runPythonProcessor (env : ResolveEnv) (o : SpawnOutcome)
    (inputPath outputPath : String) : List ProcEvent × Except String String :=
  match getPythonInvocation env with
  | .error e => ([], .error e)
  | .ok inv =>
    let startLog := ProcEvent.logMsg "info"
      ("Ejecutando procesamiento con Python (" ++ NodePath.basename inputPath ++ ")")
    if !env.existsSync inv.command && !jsIncludes inv.command "python" then
      ([startLog], .error ("El ejecutable no existe: " ++ inv.command))
    else
      match o with
      | .spawnErr code message =>
        let errorMessage := spawnErrorMessage inv.command code message
        ([startLog, ProcEvent.logMsg "error" errorMessage], .error errorMessage)
      | .exited chunks code =>
        let logEvents := (chunks.map chunkEvents).flatten
        if code == 0 then
          (startLog :: logEvents, .ok outputPath)
        else
          (startLog :: logEvents, .error (closeMessage code))

/-- The output path computed by `handleProcessRequest` (main.js:226-228):
`path.join(path.dirname(filePath), path.parse(filePath).name + '_processed.xlsx')`. -/
def outputFileFor (filePath : String) : String :=
  let destinationDir := NodePath.dirname filePath
  let parsedName := NodePath.parseName filePath
  NodePath.join [destinationDir, parsedName ++ "_processed.xlsx"]

/-- `handleProcessRequest` (main.js:217-236): reject an empty path,
then a path whose lowercased extension is not `.xlsx`; otherwise emit
`running`, run the backend, and on success emit `completed` and return
the processed path. A falsy `filePath` is modelled as `""`. -/
def handleProcessRequest (env : ResolveEnv) (o : SpawnOutcome)
    (filePath : String) : List ProcEvent × Except String String :=
  if filePath == "" then
    ([], .error "No se recibió la ruta del archivo.")
  else if jsToLower (NodePath.extname filePath) != ".xlsx" then
    ([], .error "El archivo debe tener extensión .xlsx")
  else
    let outputFile := outputFileFor filePath
    let runningEv := ProcEvent.procState "running" (some filePath) (some outputFile) none
    match runPythonProcessor env o filePath outputFile with
    | (evs, .ok processedPath) =>
      (runningEv :: evs
        ++ [ProcEvent.procState "completed" none (some processedPath) none],
       .ok processedPath)
    | (evs, .error e) => (runningEv :: evs, .error e)

/-- The structured result of the `processor:run` IPC handler. -/
structure RunResult where
  success : Bool
  outputPath : Option String
  error : Option String
deriving DecidableEq

/-- The `ipcMain.handle('processor:run', ...)` body (main.js:253-262):
await `handleProcessRequest`; success becomes `{success: true,
outputPath}`; any thrown error is caught, a `failed` processing-state
event carrying `error.message` is emitted, and `{success: false,
error: error.message}` is returned. -/
def processorRun (env : ResolveEnv) (o : SpawnOutcome) (filePath : String) :
    List ProcEvent × RunResult :=
  match handleProcessRequest env o filePath with
  | (evs, .ok outputPath) => (evs, ⟨true, some outputPath, none⟩)
  | (evs, .error e) =>
    (evs ++ [ProcEvent.procState "failed" none none (some e)],
     ⟨false, none, some e⟩)

/-- The `update-event` payloads sent to the renderer by
`setupAutoUpdater` (progress objects kept opaque as strings). -/
inductive UpdatePayload where
  | available (version releaseNotes : String)
  | notAvailable
  | updError (message : String)
  | progress (progressObj : String)
  | downloaded (version : String)
deriving DecidableEq

/-- The externally visible things `setupAutoUpdater`'s handlers do:
push an `update-event`, show a consent dialog, start the download
(`updater.downloadUpdate()`), or install (`updater.quitAndInstall()`). -/
inductive UpdaterAction where
  | sendUpdateEvent (p : UpdatePayload)
  | showDialog (title message : String) (buttons : List String)
  | downloadUpdate
  | quitAndInstall
deriving DecidableEq

/-- The flags `setupAutoUpdater` sets on the updater
(main.js:307-308). -/
structure UpdaterFlags where
  autoDownload : Bool
  autoInstallOnAppQuit : Bool
deriving DecidableEq

/-- `updater.autoDownload = false; updater.autoInstallOnAppQuit = true`. -/
def updaterFlags : UpdaterFlags :=
  { autoDownload := false, autoInstallOnAppQuit := true }

/-- An updater event together with the user's dialog answer where one
is shown: `response` is the index of the button the user pressed
(`0` = accept, anything else = decline/dismiss). -/
inductive UpdaterEvent where
  | updateAvailable (version releaseNotes : String) (response : Nat)
  | updateNotAvailable
  | updaterError (message : String)
  | downloadProgress (progressObj : String)
  | updateDownloaded (version : String) (response : Nat)
deriving DecidableEq

/-- The `setupAutoUpdater` event handlers (main.js:310-372) as the
ordered list of actions each updater event produces.
`update-available`: push the event, show the download consent dialog,
and call `downloadUpdate()` only on button 0. `update-downloaded`:
push the event, show the install consent dialog, and call
`quitAndInstall()` only on button 0. The remaining events only push
their payload. -/
def updaterHandle : UpdaterEvent → List UpdaterAction
  | .updateAvailable version releaseNotes response =>
    [UpdaterAction.sendUpdateEvent (.available version releaseNotes),
     UpdaterAction.showDialog "Actualización Disponible"
       ("Se encontró una nueva versión (" ++ version ++ "). ¿Deseas descargarla ahora?")
       ["Descargar", "Más tarde"]]
    ++ (if response == 0 then [UpdaterAction.downloadUpdate] else [])
  | .updateNotAvailable => [UpdaterAction.sendUpdateEvent .notAvailable]
  | .updaterError message => [UpdaterAction.sendUpdateEvent (.updError message)]
  | .downloadProgress progressObj =>
    [UpdaterAction.sendUpdateEvent (.progress progressObj)]
  | .updateDownloaded version response =>
    [UpdaterAction.sendUpdateEvent (.downloaded version),
     UpdaterAction.showDialog "Actualización Descargada"
       "La actualización se ha descargado. ¿Deseas reiniciar la aplicación ahora para instalarla?"
       ["Reiniciar ahora", "Más tarde"]]
    ++ (if response == 0 then [UpdaterAction.quitAndInstall] else [])

/-- A development-mode environment in which every probed path exists. -/
def devEnvAll : ResolveEnv :=
  { isPackaged := false, platform := "linux", projectRoot := "/app",
    resourcesPath := "/res", existsSync := fun _ => true }

/-- A development-mode environment in which no probed path exists. -/
def devEnvNone : ResolveEnv :=
  { isPackaged := false, platform := "linux", projectRoot := "/app",
    resourcesPath := "/res", existsSync := fun _ => false }

/-- A packaged environment in which no probed path exists. -/
def packEnvNone : ResolveEnv :=
  { isPackaged := true, platform := "win32", projectRoot := "/app",
    resourcesPath := "/res", existsSync := fun _ => false }

/-- A packaged environment in which every probed path exists. -/
def packEnvAll : ResolveEnv :=
  { isPackaged := true, platform := "linux", projectRoot := "/app",
    resourcesPath := "/res", existsSync := fun _ => true }

/-- The output-path formula asserted by the specification (claim C1):
`dirname(inputPath) + "/" + stem(inputPath) + "_processed" +
ext(inputPath)`, i.e. keeping the input's own extension. Stated from
the spec's words, to be compared with `outputFileFor`, which follows
the source. -/
def specOutputPath (p : String) : String :=
  NodePath.dirname p ++ "/" ++ NodePath.parseName p ++ "_processed"
    ++ NodePath.extname p

/-- Recognize a `processing-state` event with status `running`. -/
def isRunningEvent : ProcEvent → Bool
  | .procState status _ _ _ => status == "running"
  | _ => false

end CSB

/-! Conformance checks: the path model against Node's documented
`path.posix` behaviour, including the corner cases of the dot rules. -/

example : CSB.NodePath.extname "/data/Report.XLSX" = ".XLSX" := by decide
example : CSB.NodePath.extname "notes.txt" = ".txt" := by decide
example : CSB.NodePath.extname ".xlsx" = "" := by decide
example : CSB.NodePath.extname ".." = "" := by decide
example : CSB.NodePath.extname "a." = "." := by decide
example : CSB.NodePath.extname "" = "" := by decide
example : CSB.NodePath.dirname "/data/Report.XLSX" = "/data" := by decide
example : CSB.NodePath.dirname "Report.XLSX" = "." := by decide
example : CSB.NodePath.dirname "/a" = "/" := by decide
example : CSB.NodePath.dirname "//a" = "//" := by decide
example : CSB.NodePath.parseName "/data/Report.XLSX" = "Report" := by decide
example : CSB.NodePath.parseName "notes.txt" = "notes" := by decide
example : CSB.NodePath.join ["/data", "Report_processed.xlsx"] = "/data/Report_processed.xlsx" := by decide
example : CSB.NodePath.join [".", "a_processed.xlsx"] = "a_processed.xlsx" := by decide
example : CSB.NodePath.join ["/app", ".venv", "bin"] = "/app/.venv/bin" := by decide
example : CSB.NodePath.join ["a/..", "b"] = "b" := by decide
example : CSB.NodePath.normalize "a/../../b" = "../b" := by decide
example : CSB.jsIncludes "python3" "python" = true := by decide
example : CSB.jsIncludes "/usr/bin/proc" "python" = false := by decide

/-! Conformance checks: end-to-end evaluations of the resolver and the
supervisor model on concrete environments. -/

example : CSB.getPythonInvocation CSB.devEnvAll
    = .ok ⟨"/app/.venv/bin/python3", ["/app/python/processor.py"]⟩ := by rfl
example : CSB.getPythonInvocation CSB.devEnvNone
    = .ok ⟨"python3", ["/app/python/processor.py"]⟩ := by rfl
example : CSB.getPythonInvocation CSB.packEnvNone
    = .error "No se pudo encontrar un procesador Python empaquetado en /res/python" := by rfl
example : CSB.getPythonInvocation CSB.packEnvAll
    = .ok ⟨"/res/python/processor", []⟩ := by rfl
example : CSB.processorRun CSB.devEnvAll (.exited [] 0) "notes.txt"
    = ([CSB.ProcEvent.procState "failed" none none (some "El archivo debe tener extensión .xlsx")],
       ⟨false, none, some "El archivo debe tener extensión .xlsx"⟩) := by decide
example : CSB.processorRun CSB.devEnvAll (.exited [(false, " hola ")] 0) "/data/Report.XLSX"
    = ([CSB.ProcEvent.procState "running" (some "/data/Report.XLSX") (some "/data/Report_processed.xlsx") none,
        CSB.ProcEvent.logMsg "info" "Ejecutando procesamiento con Python (Report.XLSX)",
        CSB.ProcEvent.logMsg "info" "hola",
        CSB.ProcEvent.procState "completed" none (some "/data/Report_processed.xlsx") none],
       ⟨true, some "/data/Report_processed.xlsx", none⟩) := by decide
example : CSB.processorRun CSB.devEnvAll (.exited [] 2) "/data/a.xlsx"
    = ([CSB.ProcEvent.procState "running" (some "/data/a.xlsx") (some "/data/a_processed.xlsx") none,
        CSB.ProcEvent.logMsg "info" "Ejecutando procesamiento con Python (a.xlsx)",
        CSB.ProcEvent.procState "failed" none none (some "Python finalizó con código 2")],
       ⟨false, none, some "Python finalizó con código 2"⟩) := by decide

/-! ## Helper lemmas -/

theorem getLast?_append_singleton {α : Type} (l : List α) (a : α) :
    (l ++ [a]).getLast? = some a := by
  rw [List.getLast?_append_cons]
  rfl

theorem runPythonProcessor_snd_ok (env : CSB.ResolveEnv) (o : CSB.SpawnOutcome)
    (inp outp pp : String)
    (h : (CSB.runPythonProcessor env o inp outp).2 = Except.ok pp) : pp = outp := by
  unfold CSB.runPythonProcessor at h
  split at h
  · simp at h
  · split at h
    · simp at h
    · cases o with
      | spawnErr c m => simp at h
      | exited chunks code =>
        simp only at h
        split at h
        · simpa using h.symm
        · simp at h

theorem handleProcessRequest_snd_ok (env : CSB.ResolveEnv) (o : CSB.SpawnOutcome)
    (p out : String)
    (h : (CSB.handleProcessRequest env o p).2 = Except.ok out) :
    out = CSB.outputFileFor p := by
  unfold CSB.handleProcessRequest at h
  split at h
  · simp at h
  · split at h
    · simp at h
    · dsimp only at h
      split at h
      next evs pp heq =>
        simp only at h
        rw [Except.ok.injEq] at h
        subst h
        exact runPythonProcessor_snd_ok env o p (CSB.outputFileFor p) pp
          (by rw [heq])
      next evs e heq => simp at h

/-! ## Claim theorems -/

/-- C1 (counterexample): for the accepted input `/data/Report.XLSX` the
handler's output path is `/data/Report_processed.xlsx` — the literal
lowercase `.xlsx` — whereas the claimed formula
`dirname + "/" + stem + "_processed" + ext` yields
`/data/Report_processed.XLSX`; the run-conversion command with backend
exit code 0 returns the lowercase path. -/
theorem C1_counterexample :
    CSB.jsToLower (CSB.NodePath.extname "/data/Report.XLSX") = ".xlsx"
    ∧ CSB.outputFileFor "/data/Report.XLSX" = "/data/Report_processed.xlsx"
    ∧ CSB.specOutputPath "/data/Report.XLSX" = "/data/Report_processed.XLSX"
    ∧ CSB.outputFileFor "/data/Report.XLSX" ≠ CSB.specOutputPath "/data/Report.XLSX"
    ∧ (CSB.processorRun CSB.devEnvAll (.exited [] 0) "/data/Report.XLSX").2
        = ⟨true, some "/data/Report_processed.xlsx", none⟩ :=
  ⟨by decide, by decide, by decide, by decide, by decide⟩

/-- C1 (amended): for every input accepted by validation, the output
path passed to the backend and returned on success equals the directory
of the input joined with the input's stem, the suffix `_processed`, and
the literal lowercase extension `.xlsx` — not the input's own
extension. -/
theorem C1_output_naming (env : CSB.ResolveEnv) (o : CSB.SpawnOutcome) (p out : String)
    (h : (CSB.handleProcessRequest env o p).2 = Except.ok out) :
    out = CSB.NodePath.join [CSB.NodePath.dirname p,
      CSB.NodePath.parseName p ++ ("_processed" ++ ".xlsx")] := by
  rw [handleProcessRequest_snd_ok env o p out h]
  rw [show ("_processed" ++ ".xlsx" : String) = "_processed.xlsx" from by decide]
  rfl

/-- Witness for C1's amended theorem at a concrete accepted input. -/
theorem C1_output_naming_witness :
    (CSB.handleProcessRequest CSB.devEnvAll (.exited [] 0) "/data/in.xlsx").2
        = Except.ok "/data/in_processed.xlsx"
    ∧ "/data/in_processed.xlsx" = CSB.NodePath.join [CSB.NodePath.dirname "/data/in.xlsx",
        CSB.NodePath.parseName "/data/in.xlsx" ++ ("_processed" ++ ".xlsx")] :=
  ⟨by decide, C1_output_naming CSB.devEnvAll (.exited [] 0) "/data/in.xlsx"
    "/data/in_processed.xlsx" (by decide)⟩

/-- C2: an empty input path, or one whose lowercased extension differs
from `.xlsx`, is rejected by validation: the handler emits no events
(in particular no `running` processing-state event), returns a
validation error, and its outcome is independent of the resolution
environment and of anything a backend process would do — so no
resolution and no spawn happen. Every path whose extension
case-insensitively equals `.xlsx` passes validation: the handler's
trace starts with the `running` event. -/
theorem C2_validation (env env2 : CSB.ResolveEnv) (o o2 : CSB.SpawnOutcome) (p : String) :
    ((p = "" ∨ CSB.jsToLower (CSB.NodePath.extname p) ≠ ".xlsx") →
      (CSB.handleProcessRequest env o p).1 = []
      ∧ ((CSB.handleProcessRequest env o p).2
            = Except.error "No se recibió la ruta del archivo."
         ∨ (CSB.handleProcessRequest env o p).2
            = Except.error "El archivo debe tener extensión .xlsx")
      ∧ CSB.handleProcessRequest env o p = CSB.handleProcessRequest env2 o2 p)
    ∧ (CSB.jsToLower (CSB.NodePath.extname p) = ".xlsx" →
      ∃ t, (CSB.handleProcessRequest env o p).1
        = CSB.ProcEvent.procState "running" (some p) (some (CSB.outputFileFor p)) none :: t) := by
  constructor
  · intro hbad
    by_cases hp : p = ""
    · subst hp
      refine ⟨rfl, Or.inl rfl, rfl⟩
    · have hext : CSB.jsToLower (CSB.NodePath.extname p) ≠ ".xlsx" := by
        rcases hbad with hbad | hbad
        · exact absurd hbad hp
        · exact hbad
      have h1 : (p == "") = false := beq_eq_false_iff_ne.mpr hp
      have h2 : (CSB.jsToLower (CSB.NodePath.extname p) != ".xlsx") = true :=
        bne_iff_ne.mpr hext
      refine ⟨?_, Or.inr ?_, ?_⟩ <;>
        simp [CSB.handleProcessRequest, h1, h2]
  · intro hext
    have hp : p ≠ "" := by
      intro hp
      subst hp
      exact absurd hext (by decide)
    have h1 : (p == "") = false := beq_eq_false_iff_ne.mpr hp
    have h2 : (CSB.jsToLower (CSB.NodePath.extname p) != ".xlsx") = false := by
      simp [bne, hext]
    rcases hr : CSB.runPythonProcessor env o p (CSB.outputFileFor p) with ⟨evs, r⟩
    cases r with
    | ok pp =>
      exact ⟨evs ++ [CSB.ProcEvent.procState "completed" none (some pp) none],
        by simp [CSB.handleProcessRequest, h1, h2, hr]⟩
    | error e =>
      exact ⟨evs, by simp [CSB.handleProcessRequest, h1, h2, hr]⟩

/-- Witness for C2 at the rejected input `doc.txt` and the accepted
input `/in/a.XLSX`. -/
theorem C2_validation_witness :
    ((CSB.handleProcessRequest CSB.devEnvAll (.exited [] 0) "doc.txt").1 = []
      ∧ ((CSB.handleProcessRequest CSB.devEnvAll (.exited [] 0) "doc.txt").2
            = Except.error "No se recibió la ruta del archivo."
         ∨ (CSB.handleProcessRequest CSB.devEnvAll (.exited [] 0) "doc.txt").2
            = Except.error "El archivo debe tener extensión .xlsx")
      ∧ CSB.handleProcessRequest CSB.devEnvAll (.exited [] 0) "doc.txt"
          = CSB.handleProcessRequest CSB.packEnvNone (.spawnErr "ENOENT" "x") "doc.txt")
    ∧ (∃ t, (CSB.handleProcessRequest CSB.devEnvAll (.exited [] 0) "/in/a.XLSX").1
        = CSB.ProcEvent.procState "running" (some "/in/a.XLSX")
            (some (CSB.outputFileFor "/in/a.XLSX")) none :: t) :=
  ⟨(C2_validation CSB.devEnvAll CSB.packEnvNone (.exited [] 0) (.spawnErr "ENOENT" "x")
      "doc.txt").1 (Or.inr (by decide)),
   (C2_validation CSB.devEnvAll CSB.packEnvNone (.exited [] 0) (.spawnErr "ENOENT" "x")
      "/in/a.XLSX").2 (by decide)⟩

/-- C3: the `processor:run` handler never surfaces a raw fault: its
result is always one of the two structured shapes — `{success: true,
outputPath}` exactly when the underlying request resolved with that
output path, and `{success: false, error}` carrying the failure's
message exactly when it rejected; and when validation passes, the
resolved command survives the pre-spawn check, and the backend exits 0,
the result is `{success: true}` with the computed output path. -/
theorem C3_structured_result (env : CSB.ResolveEnv) (o : CSB.SpawnOutcome) (p : String) :
    (∀ out, (CSB.handleProcessRequest env o p).2 = Except.ok out →
       (CSB.processorRun env o p).2 = ⟨true, some out, none⟩)
    ∧ (∀ e, (CSB.handleProcessRequest env o p).2 = Except.error e →
       (CSB.processorRun env o p).2 = ⟨false, none, some e⟩)
    ∧ ((∃ out, (CSB.processorRun env o p).2 = ⟨true, some out, none⟩)
       ∨ (∃ e, (CSB.processorRun env o p).2 = ⟨false, none, some e⟩))
    ∧ (∀ chunks inv, CSB.getPythonInvocation env = Except.ok inv →
         (env.existsSync inv.command = true ∨ CSB.jsIncludes inv.command "python" = true) →
         CSB.jsToLower (CSB.NodePath.extname p) = ".xlsx" →
         (CSB.processorRun env (.exited chunks 0) p).2
           = ⟨true, some (CSB.outputFileFor p), none⟩) := by
  rcases hh : CSB.handleProcessRequest env o p with ⟨evs, r⟩
  refine ⟨?_, ?_, ?_, ?_⟩
  · intro out hout
    simp only at hout
    subst hout
    simp [CSB.processorRun, hh]
  · intro e he
    simp only at he
    subst he
    simp [CSB.processorRun, hh]
  · cases r with
    | ok out => exact Or.inl ⟨out, by simp [CSB.processorRun, hh]⟩
    | error e => exact Or.inr ⟨e, by simp [CSB.processorRun, hh]⟩
  · intro chunks inv hres hcmd hext
    have hp : p ≠ "" := by
      intro hp
      subst hp
      exact absurd hext (by decide)
    have h1 : (p == "") = false := beq_eq_false_iff_ne.mpr hp
    have h2 : (CSB.jsToLower (CSB.NodePath.extname p) != ".xlsx") = false := by
      simp [bne, hext]
    have hchk : (!env.existsSync inv.command && !CSB.jsIncludes inv.command "python")
        = false := by
      rcases hcmd with hcmd | hcmd <;> simp [hcmd]
    simp [CSB.processorRun, CSB.handleProcessRequest, h1, h2,
      CSB.runPythonProcessor, hres, hchk]

/-- Witness for C3 at concrete inputs: a succeeding run, a failing run,
and the exit-code-0 success shape. -/
theorem C3_structured_result_witness :
    ((CSB.processorRun CSB.devEnvAll (.exited [] 0) "/in/a.xlsx").2
        = ⟨true, some "/in/a_processed.xlsx", none⟩)
    ∧ ((CSB.processorRun CSB.devEnvAll (.exited [] 3) "/in/a.xlsx").2
        = ⟨false, none, some "Python finalizó con código 3"⟩)
    ∧ ((CSB.processorRun CSB.devEnvAll (.exited [] 0) "/in/a.xlsx").2
        = ⟨true, some (CSB.outputFileFor "/in/a.xlsx"), none⟩) :=
  ⟨(C3_structured_result CSB.devEnvAll (.exited [] 0) "/in/a.xlsx").1
      "/in/a_processed.xlsx" (by decide),
   (C3_structured_result CSB.devEnvAll (.exited [] 3) "/in/a.xlsx").2.1
      "Python finalizó con código 3" (by decide),
   (C3_structured_result CSB.devEnvAll (.exited [] 0) "/in/a.xlsx").2.2.2
      [] ⟨"/app/.venv/bin/python3", ["/app/python/processor.py"]⟩
      (by decide) (Or.inl (by decide)) (by decide)⟩

/-- C4: for every exit of the spawned backend (resolution succeeded and
the resolved command passed the pre-spawn check): exit code 0 resolves
the run with the output path; exit code 1 fails with the dedicated
content-error message, which differs from the generic message for that
code; exit code 9009 fails with its own launch-failure message; and
every other nonzero code fails with the generic fallback message
carrying the raw code. -/
theorem C4_exit_classification (env : CSB.ResolveEnv) (inv : CSB.Invocation)
    (chunks : List (Bool × String)) (code : Int) (inp outp : String)
    (hres : CSB.getPythonInvocation env = Except.ok inv)
    (hcmd : env.existsSync inv.command = true ∨ CSB.jsIncludes inv.command "python" = true) :
    (code = 0 →
      (CSB.runPythonProcessor env (.exited chunks code) inp outp).2 = Except.ok outp)
    ∧ (code = 1 →
      (CSB.runPythonProcessor env (.exited chunks code) inp outp).2
        = Except.error "Error en el procesamiento Python. Revisa el archivo de entrada."
      ∧ CSB.closeMessage code ≠ "Python finalizó con código " ++ toString code)
    ∧ (code = 9009 →
      (CSB.runPythonProcessor env (.exited chunks code) inp outp).2
        = Except.error
            "Error 9009: No se pudo encontrar o ejecutar Python. Verifica la instalación.")
    ∧ (code ≠ 0 → code ≠ 1 → code ≠ 9009 →
      (CSB.runPythonProcessor env (.exited chunks code) inp outp).2
        = Except.error ("Python finalizó con código " ++ toString code)) := by
  have hchk : (!env.existsSync inv.command && !CSB.jsIncludes inv.command "python")
      = false := by
    rcases hcmd with hcmd | hcmd <;> simp [hcmd]
  refine ⟨?_, ?_, ?_, ?_⟩
  · intro h0
    subst h0
    simp [CSB.runPythonProcessor, hres, hchk]
  · intro h1
    subst h1
    exact ⟨by simp [CSB.runPythonProcessor, hres, hchk, CSB.closeMessage], by decide⟩
  · intro h9
    subst h9
    simp [CSB.runPythonProcessor, hres, hchk, CSB.closeMessage]
  · intro h0 h1 h9
    have b0 : (code == (0 : Int)) = false := by simp [h0]
    have b1 : (code == (1 : Int)) = false := by simp [h1]
    have b9 : (code == (9009 : Int)) = false := by simp [h9]
    simp [CSB.runPythonProcessor, hres, hchk, CSB.closeMessage, b0, b1, b9]

/-- Witness for C4: the four classifications evaluated in a concrete
environment at codes 0, 1, 9009 and 7. -/
theorem C4_exit_classification_witness :
    ((CSB.runPythonProcessor CSB.devEnvAll (.exited [] 0) "/in/a.xlsx" "/in/o.xlsx").2
       = Except.ok "/in/o.xlsx")
    ∧ ((CSB.runPythonProcessor CSB.devEnvAll (.exited [] 1) "/in/a.xlsx" "/in/o.xlsx").2
         = Except.error "Error en el procesamiento Python. Revisa el archivo de entrada."
       ∧ CSB.closeMessage 1 ≠ "Python finalizó con código " ++ toString (1 : Int))
    ∧ ((CSB.runPythonProcessor CSB.devEnvAll (.exited [] 9009) "/in/a.xlsx" "/in/o.xlsx").2
       = Except.error
           "Error 9009: No se pudo encontrar o ejecutar Python. Verifica la instalación.")
    ∧ ((CSB.runPythonProcessor CSB.devEnvAll (.exited [] 7) "/in/a.xlsx" "/in/o.xlsx").2
       = Except.error ("Python finalizó con código " ++ toString (7 : Int))) := by
  have hres : CSB.getPythonInvocation CSB.devEnvAll
      = Except.ok ⟨"/app/.venv/bin/python3", ["/app/python/processor.py"]⟩ := by decide
  have hcmd : CSB.devEnvAll.existsSync "/app/.venv/bin/python3" = true
      ∨ CSB.jsIncludes "/app/.venv/bin/python3" "python" = true := Or.inl (by decide)
  exact ⟨(C4_exit_classification CSB.devEnvAll _ [] 0 "/in/a.xlsx" "/in/o.xlsx"
            hres hcmd).1 rfl,
         (C4_exit_classification CSB.devEnvAll _ [] 1 "/in/a.xlsx" "/in/o.xlsx"
            hres hcmd).2.1 rfl,
         (C4_exit_classification CSB.devEnvAll _ [] 9009 "/in/a.xlsx" "/in/o.xlsx"
            hres hcmd).2.2.1 rfl,
         (C4_exit_classification CSB.devEnvAll _ [] 7 "/in/a.xlsx" "/in/o.xlsx"
            hres hcmd).2.2.2 (by decide) (by decide) (by decide)⟩

/-- C5 (counterexample): in a development-mode environment whose
existence predicate reports no path at all, resolution does not fail —
it falls back to the system interpreter name. The claim that resolution
fails with a backend-not-found error in both modes is therefore false
for development mode. -/
theorem C5_counterexample :
    CSB.devEnvNone.isPackaged = false
    ∧ CSB.devEnvNone.existsSync "/app/.venv/bin/python3" = false
    ∧ CSB.devEnvNone.existsSync "/app/.venv/bin/python" = false
    ∧ CSB.getPythonInvocation CSB.devEnvNone
        = Except.ok ⟨"python3", ["/app/python/processor.py"]⟩ :=
  ⟨rfl, rfl, rfl, by decide⟩

/-- C5 (amended): under an existence predicate reporting no candidate,
resolution fails with the backend-not-found error only in packaged
mode, and there the supervisor rejects before any spawn (its outcome is
independent of the backend's behaviour and it emits no events); in
development mode resolution instead succeeds with the platform's
conventional interpreter name and the script path. -/
theorem C5_no_candidate (env : CSB.ResolveEnv) (o : CSB.SpawnOutcome) (inp outp : String)
    (hnone : ∀ q, env.existsSync q = false) :
    (env.isPackaged = true →
       CSB.getPythonInvocation env = Except.error
         ("No se pudo encontrar un procesador Python empaquetado en " ++ CSB.packagedDir env)
       ∧ CSB.runPythonProcessor env o inp outp
         = ([], Except.error
             ("No se pudo encontrar un procesador Python empaquetado en "
               ++ CSB.packagedDir env)))
    ∧ (env.isPackaged = false →
       CSB.getPythonInvocation env
         = Except.ok ⟨CSB.systemPythonCmd env, [CSB.scriptPath env]⟩) := by
  constructor
  · intro hp
    have hres : CSB.getPythonInvocation env = Except.error
        ("No se pudo encontrar un procesador Python empaquetado en "
          ++ CSB.packagedDir env) := by
      simp [CSB.getPythonInvocation, hp, CSB.executableCandidates, hnone]
    exact ⟨hres, by simp [CSB.runPythonProcessor, hres]⟩
  · intro hp
    have hdev : CSB.resolveDevPython env = none := by
      unfold CSB.resolveDevPython
      cases hpl : env.platform == "win32" <;> simp [hpl, hnone]
    simp [CSB.getPythonInvocation, hp, hdev]

/-- Witness for C5's amended theorem in concrete packaged and
development environments with an all-false existence predicate. -/
theorem C5_no_candidate_witness :
    (CSB.getPythonInvocation CSB.packEnvNone = Except.error
       ("No se pudo encontrar un procesador Python empaquetado en "
         ++ CSB.packagedDir CSB.packEnvNone)
     ∧ CSB.runPythonProcessor CSB.packEnvNone (.exited [] 0) "/in/a.xlsx" "/in/o.xlsx"
       = ([], Except.error
           ("No se pudo encontrar un procesador Python empaquetado en "
             ++ CSB.packagedDir CSB.packEnvNone)))
    ∧ CSB.getPythonInvocation CSB.devEnvNone
        = Except.ok ⟨CSB.systemPythonCmd CSB.devEnvNone, [CSB.scriptPath CSB.devEnvNone]⟩ :=
  ⟨(C5_no_candidate CSB.packEnvNone (.exited [] 0) "/in/a.xlsx" "/in/o.xlsx"
      (fun _ => rfl)).1 rfl,
   (C5_no_candidate CSB.devEnvNone (.exited [] 0) "/in/a.xlsx" "/in/o.xlsx"
      (fun _ => rfl)).2 rfl⟩

/-- C6: in packaged mode resolution probes the fixed ordered
five-element executable candidate list under the resources directory;
the first existing candidate becomes a zero-argument invocation; when
none exists but the packaged script does, the invocation is the
platform's conventional interpreter name with the script as its single
argument; when neither exists, resolution fails. -/
theorem C6_packaged_resolution (env : CSB.ResolveEnv) (hp : env.isPackaged = true) :
    (∀ c, (CSB.executableCandidates env).find? env.existsSync = some c →
       CSB.getPythonInvocation env = Except.ok ⟨c, []⟩)
    ∧ ((CSB.executableCandidates env).find? env.existsSync = none →
       env.existsSync (CSB.packagedScript env) = true →
       CSB.getPythonInvocation env
         = Except.ok ⟨CSB.systemPythonCmd env, [CSB.packagedScript env]⟩)
    ∧ ((CSB.executableCandidates env).find? env.existsSync = none →
       env.existsSync (CSB.packagedScript env) = false →
       CSB.getPythonInvocation env = Except.error
         ("No se pudo encontrar un procesador Python empaquetado en "
           ++ CSB.packagedDir env))
    ∧ CSB.executableCandidates env
        = [CSB.NodePath.join [CSB.packagedDir env, CSB.executableName env],
           CSB.NodePath.join [CSB.packagedDir env, "bin", CSB.executableName env],
           CSB.NodePath.join [CSB.packagedDir env, "dist", CSB.executableName env],
           CSB.NodePath.join [CSB.packagedDir env, "dist", "processor", CSB.executableName env],
           CSB.NodePath.join [CSB.packagedDir env, "processor", CSB.executableName env]] := by
  refine ⟨?_, ?_, ?_, rfl⟩
  · intro c hfind
    simp [CSB.getPythonInvocation, hp, hfind]
  · intro hfind hscript
    simp [CSB.getPythonInvocation, hp, hfind, hscript]
  · intro hfind hscript
    simp [CSB.getPythonInvocation, hp, hfind, hscript]

/-- Witness for C6: in a packaged environment where everything exists
the first candidate wins with no arguments; where nothing exists
resolution fails. -/
theorem C6_packaged_resolution_witness :
    CSB.getPythonInvocation CSB.packEnvAll = Except.ok ⟨"/res/python/processor", []⟩
    ∧ CSB.getPythonInvocation CSB.packEnvNone = Except.error
        ("No se pudo encontrar un procesador Python empaquetado en "
          ++ CSB.packagedDir CSB.packEnvNone) :=
  ⟨(C6_packaged_resolution CSB.packEnvAll rfl).1 "/res/python/processor" (by decide),
   (C6_packaged_resolution CSB.packEnvNone rfl).2.2.1 (by decide) rfl⟩

/-- C7: every chunk received on the backend's standard output or
standard error is whitespace-trimmed; a non-empty remainder yields
exactly one `log-message` event — level `info` for standard output,
`error` for standard error — carrying the trimmed text, and an empty
remainder yields no event. -/
theorem C7_chunk_logging (data : String) (isStderr : Bool) :
    (CSB.jsTrim data = "" →
       CSB.stdoutDataEvents data = []
       ∧ CSB.stderrDataEvents data = []
       ∧ CSB.chunkEvents (isStderr, data) = [])
    ∧ (CSB.jsTrim data ≠ "" →
       CSB.stdoutDataEvents data = [CSB.ProcEvent.logMsg "info" (CSB.jsTrim data)]
       ∧ CSB.stderrDataEvents data = [CSB.ProcEvent.logMsg "error" (CSB.jsTrim data)]
       ∧ CSB.chunkEvents (isStderr, data)
           = [CSB.ProcEvent.logMsg (if isStderr then "error" else "info")
               (CSB.jsTrim data)]) := by
  constructor
  · intro hempty
    have hb : (CSB.jsTrim data != "") = false := by simp [bne, hempty]
    refine ⟨?_, ?_, ?_⟩ <;>
      cases isStderr <;>
        simp [CSB.stdoutDataEvents, CSB.stderrDataEvents, CSB.chunkEvents, hb]
  · intro hne
    have hb : (CSB.jsTrim data != "") = true := bne_iff_ne.mpr hne
    refine ⟨?_, ?_, ?_⟩ <;>
      cases isStderr <;>
        simp [CSB.stdoutDataEvents, CSB.stderrDataEvents, CSB.chunkEvents, hb]

/-- Witness for C7 at a whitespace-only chunk and a payload chunk, on
both streams. -/
theorem C7_chunk_logging_witness :
    (CSB.stdoutDataEvents "  \n " = []
     ∧ CSB.stderrDataEvents "  \n " = []
     ∧ CSB.chunkEvents (true, "  \n ") = [])
    ∧ (CSB.stdoutDataEvents " fila 3 " = [CSB.ProcEvent.logMsg "info" (CSB.jsTrim " fila 3 ")]
       ∧ CSB.stderrDataEvents " fila 3 "
           = [CSB.ProcEvent.logMsg "error" (CSB.jsTrim " fila 3 ")]
       ∧ CSB.chunkEvents (false, " fila 3 ")
           = [CSB.ProcEvent.logMsg (if false then "error" else "info")
               (CSB.jsTrim " fila 3 ")]) :=
  ⟨(C7_chunk_logging "  \n " true).1 (by decide),
   (C7_chunk_logging " fila 3 " false).2 (by decide)⟩

/-- C8 (counterexample): the run-conversion command on `notes.txt`
emits a terminal `failed` processing-state event as its only event —
no `running` event precedes it. -/
theorem C8_counterexample :
    (CSB.processorRun CSB.devEnvAll (.exited [] 0) "notes.txt").1
      = [CSB.ProcEvent.procState "failed" none none
          (some "El archivo debe tener extensión .xlsx")]
    ∧ (CSB.processorRun CSB.devEnvAll (.exited [] 0) "notes.txt").1.filter
        CSB.isRunningEvent = [] :=
  ⟨by decide, by decide⟩

/-- C8 (amended): when validation passes (non-empty path with a
case-insensitive `.xlsx` extension), the job's event trace starts with
the `running` event, so `running` precedes every terminal
(`completed`/`failed`) event of that job; when validation rejects the
input, the trace is a single `failed` event with no `running` before
it. -/
theorem C8_running_before_terminal (env : CSB.ResolveEnv) (o : CSB.SpawnOutcome) (p : String) :
    ((p ≠ "" ∧ CSB.jsToLower (CSB.NodePath.extname p) = ".xlsx") →
       ∃ t, (CSB.processorRun env o p).1
         = CSB.ProcEvent.procState "running" (some p) (some (CSB.outputFileFor p)) none :: t)
    ∧ (¬(p ≠ "" ∧ CSB.jsToLower (CSB.NodePath.extname p) = ".xlsx") →
       ∃ m, (CSB.processorRun env o p).1
         = [CSB.ProcEvent.procState "failed" none none (some m)]) := by
  constructor
  · rintro ⟨hp, hext⟩
    have h1 : (p == "") = false := beq_eq_false_iff_ne.mpr hp
    have h2 : (CSB.jsToLower (CSB.NodePath.extname p) != ".xlsx") = false := by
      simp [bne, hext]
    rcases hr : CSB.runPythonProcessor env o p (CSB.outputFileFor p) with ⟨evs, r⟩
    cases r with
    | ok pp =>
      exact ⟨evs ++ [CSB.ProcEvent.procState "completed" none (some pp) none],
        by simp [CSB.processorRun, CSB.handleProcessRequest, h1, h2, hr]⟩
    | error e =>
      exact ⟨evs ++ [CSB.ProcEvent.procState "failed" none none (some e)],
        by simp [CSB.processorRun, CSB.handleProcessRequest, h1, h2, hr]⟩
  · intro hbad
    by_cases hp : p = ""
    · subst hp
      exact ⟨"No se recibió la ruta del archivo.",
        by simp [CSB.processorRun, CSB.handleProcessRequest]⟩
    · have hext : CSB.jsToLower (CSB.NodePath.extname p) ≠ ".xlsx" := by
        intro hext
        exact hbad ⟨hp, hext⟩
      have h1 : (p == "") = false := beq_eq_false_iff_ne.mpr hp
      have h2 : (CSB.jsToLower (CSB.NodePath.extname p) != ".xlsx") = true :=
        bne_iff_ne.mpr hext
      exact ⟨"El archivo debe tener extensión .xlsx",
        by simp [CSB.processorRun, CSB.handleProcessRequest, h1, h2]⟩

/-- Witness for C8's amended theorem at an accepted and a rejected
input. -/
theorem C8_running_before_terminal_witness :
    (∃ t, (CSB.processorRun CSB.devEnvAll (.exited [] 0) "/in/b.xlsx").1
       = CSB.ProcEvent.procState "running" (some "/in/b.xlsx")
           (some (CSB.outputFileFor "/in/b.xlsx")) none :: t)
    ∧ (∃ m, (CSB.processorRun CSB.devEnvAll (.exited [] 0) "notes.txt").1
       = [CSB.ProcEvent.procState "failed" none none (some m)]) :=
  ⟨(C8_running_before_terminal CSB.devEnvAll (.exited [] 0) "/in/b.xlsx").1
      ⟨by decide, by decide⟩,
   (C8_running_before_terminal CSB.devEnvAll (.exited [] 0) "notes.txt").2
      (by
        rintro ⟨-, hext⟩
        exact absurd hext (by decide))⟩

/-- C9: the update controller never auto-progresses: auto-download is
disabled; `downloadUpdate()` appears among the actions of an updater
event only when that event is `update-available` and the user pressed
button 0 of its consent dialog; `quitAndInstall()` only when the event
is `update-downloaded` with button 0; and on any other button both
handlers stop after pushing the event and showing the dialog. -/
theorem C9_consent_gates :
    CSB.updaterFlags.autoDownload = false
    ∧ (∀ ev, CSB.UpdaterAction.downloadUpdate ∈ CSB.updaterHandle ev →
         ∃ v rn, ev = CSB.UpdaterEvent.updateAvailable v rn 0)
    ∧ (∀ ev, CSB.UpdaterAction.quitAndInstall ∈ CSB.updaterHandle ev →
         ∃ v, ev = CSB.UpdaterEvent.updateDownloaded v 0)
    ∧ (∀ v rn r, r ≠ 0 →
         CSB.updaterHandle (.updateAvailable v rn r)
           = [CSB.UpdaterAction.sendUpdateEvent (.available v rn),
              CSB.UpdaterAction.showDialog "Actualización Disponible"
                ("Se encontró una nueva versión (" ++ v ++ "). ¿Deseas descargarla ahora?")
                ["Descargar", "Más tarde"]])
    ∧ (∀ v r, r ≠ 0 →
         CSB.updaterHandle (.updateDownloaded v r)
           = [CSB.UpdaterAction.sendUpdateEvent (.downloaded v),
              CSB.UpdaterAction.showDialog "Actualización Descargada"
                "La actualización se ha descargado. ¿Deseas reiniciar la aplicación ahora para instalarla?"
                ["Reiniciar ahora", "Más tarde"]])
    ∧ (∀ v rn, CSB.updaterHandle (.updateAvailable v rn 0)
         = [CSB.UpdaterAction.sendUpdateEvent (.available v rn),
            CSB.UpdaterAction.showDialog "Actualización Disponible"
              ("Se encontró una nueva versión (" ++ v ++ "). ¿Deseas descargarla ahora?")
              ["Descargar", "Más tarde"],
            CSB.UpdaterAction.downloadUpdate])
    ∧ (∀ v, CSB.updaterHandle (.updateDownloaded v 0)
         = [CSB.UpdaterAction.sendUpdateEvent (.downloaded v),
            CSB.UpdaterAction.showDialog "Actualización Descargada"
              "La actualización se ha descargado. ¿Deseas reiniciar la aplicación ahora para instalarla?"
              ["Reiniciar ahora", "Más tarde"],
            CSB.UpdaterAction.quitAndInstall]) := by
  refine ⟨rfl, ?_, ?_, ?_, ?_, ?_, ?_⟩
  · intro ev h
    cases ev with
    | updateAvailable v rn r =>
      by_cases hr : r = 0
      · exact ⟨v, rn, by rw [hr]⟩
      · have hb : (r == 0) = false := beq_eq_false_iff_ne.mpr hr
        simp [CSB.updaterHandle, hb] at h
    | updateNotAvailable => simp [CSB.updaterHandle] at h
    | updaterError m => simp [CSB.updaterHandle] at h
    | downloadProgress pr => simp [CSB.updaterHandle] at h
    | updateDownloaded v r =>
      by_cases hr : r = 0
      · have hb : (r == 0) = true := by simp [hr]
        simp [CSB.updaterHandle, hb] at h
      · have hb : (r == 0) = false := beq_eq_false_iff_ne.mpr hr
        simp [CSB.updaterHandle, hb] at h
  · intro ev h
    cases ev with
    | updateAvailable v rn r =>
      by_cases hr : r = 0
      · have hb : (r == 0) = true := by simp [hr]
        simp [CSB.updaterHandle, hb] at h
      · have hb : (r == 0) = false := beq_eq_false_iff_ne.mpr hr
        simp [CSB.updaterHandle, hb] at h
    | updateNotAvailable => simp [CSB.updaterHandle] at h
    | updaterError m => simp [CSB.updaterHandle] at h
    | downloadProgress pr => simp [CSB.updaterHandle] at h
    | updateDownloaded v r =>
      by_cases hr : r = 0
      · exact ⟨v, by rw [hr]⟩
      · have hb : (r == 0) = false := beq_eq_false_iff_ne.mpr hr
        simp [CSB.updaterHandle, hb] at h
  · intro v rn r hr
    have hb : (r == 0) = false := beq_eq_false_iff_ne.mpr hr
    simp [CSB.updaterHandle, hb]
  · intro v r hr
    have hb : (r == 0) = false := beq_eq_false_iff_ne.mpr hr
    simp [CSB.updaterHandle, hb]
  · intro v rn
    simp [CSB.updaterHandle]
  · intro v
    simp [CSB.updaterHandle]

/-- Witness for C9 at concrete consent and decline responses. -/
theorem C9_consent_gates_witness :
    (∃ v rn, CSB.UpdaterEvent.updateAvailable "1.2.3" "notas" 0
       = CSB.UpdaterEvent.updateAvailable v rn 0)
    ∧ (∃ v, CSB.UpdaterEvent.updateDownloaded "1.2.3" 0
       = CSB.UpdaterEvent.updateDownloaded v 0)
    ∧ CSB.updaterHandle (.updateAvailable "1.2.3" "notas" 1)
        = [CSB.UpdaterAction.sendUpdateEvent (.available "1.2.3" "notas"),
           CSB.UpdaterAction.showDialog "Actualización Disponible"
             ("Se encontró una nueva versión (" ++ "1.2.3" ++ "). ¿Deseas descargarla ahora?")
             ["Descargar", "Más tarde"]]
    ∧ CSB.updaterHandle (.updateDownloaded "1.2.3" 1)
        = [CSB.UpdaterAction.sendUpdateEvent (.downloaded "1.2.3"),
           CSB.UpdaterAction.showDialog "Actualización Descargada"
             "La actualización se ha descargado. ¿Deseas reiniciar la aplicación ahora para instalarla?"
             ["Reiniciar ahora", "Más tarde"]] :=
  ⟨C9_consent_gates.2.1 (.updateAvailable "1.2.3" "notas" 0) (by decide),
   C9_consent_gates.2.2.1 (.updateDownloaded "1.2.3" 0) (by decide),
   C9_consent_gates.2.2.2.1 "1.2.3" "notas" 1 (by decide),
   C9_consent_gates.2.2.2.2.1 "1.2.3" 1 (by decide)⟩

/-- C10: whenever the `processor:run` handler fails — including
validation failures that never reached the `running` state — the last
event it emits is a `failed` processing-state event whose error message
is identical to the error string of the returned
`{success: false, error}` result. -/
theorem C10_failed_event_message (env : CSB.ResolveEnv) (o : CSB.SpawnOutcome)
    (p e : String)
    (h : (CSB.processorRun env o p).2.error = some e) :
    (CSB.processorRun env o p).2 = ⟨false, none, some e⟩
    ∧ (CSB.processorRun env o p).1.getLast?
        = some (CSB.ProcEvent.procState "failed" none none (some e)) := by
  rcases hh : CSB.handleProcessRequest env o p with ⟨evs, r⟩
  cases r with
  | ok out =>
    rw [CSB.processorRun, hh] at h
    simp at h
  | error m =>
    rw [CSB.processorRun, hh] at h
    simp only at h
    rw [Option.some.injEq] at h
    subst h
    constructor
    · simp [CSB.processorRun, hh]
    · simp only [CSB.processorRun, hh]
      exact getLast?_append_singleton evs _

/-- Witness for C10 at a validation failure (empty path) with no
`running` event. -/
theorem C10_failed_event_message_witness :
    (CSB.processorRun CSB.devEnvAll (.exited [] 0) "").2.error
        = some "No se recibió la ruta del archivo."
    ∧ (CSB.processorRun CSB.devEnvAll (.exited [] 0) "").2
        = ⟨false, none, some "No se recibió la ruta del archivo."⟩
    ∧ (CSB.processorRun CSB.devEnvAll (.exited [] 0) "").1.getLast?
        = some (CSB.ProcEvent.procState "failed" none none
            (some "No se recibió la ruta del archivo.")) :=
  ⟨by decide,
   (C10_failed_event_message CSB.devEnvAll (.exited [] 0) ""
      "No se recibió la ruta del archivo." (by decide)).1,
   (C10_failed_event_message CSB.devEnvAll (.exited [] 0) ""
      "No se recibió la ruta del archivo." (by decide)).2⟩
